import Mathlib

/-!
Verification of the wlral window/output lifecycle and geometry engine.

The definitions below are a shallow embedding of the Rust sources:
geometry.rs (value types), the shell adapters (shell/xdg.rs,
shell/layer.rs, shell/xwayland.rs), window.rs (the window entity and its
event handler), window_manager.rs (stacking layers), and the example
floating window-management policy (example/src/main.rs).  State held
behind wlroots pointers is modelled as explicit record fields; calls into
the native library are recorded as explicit effect values.  Cursor
coordinates (f64 in the source) are modelled as rationals; all claims
evaluate them only at integer-valued points, where f64 arithmetic is
exact.
-/

namespace Wlral

/-- A point with signed integer coordinates, from geometry.rs (TPoint of i32). -/
structure Point where
  x : Int
  y : Int
  deriving DecidableEq, Repr

/-- A size with signed integer dimensions, from geometry.rs. -/
structure Size where
  width : Int
  height : Int
  deriving DecidableEq, Repr

/-- An integer displacement vector, from geometry.rs (TDisplacement of i32). -/
structure Displacement where
  dx : Int
  dy : Int
  deriving DecidableEq, Repr

/-- A rectangle given by its top-left corner and size, from geometry.rs. -/
structure Rectangle where
  topLeft : Point
  size : Size
  deriving DecidableEq, Repr

def Point.ZERO : Point := ⟨0, 0⟩

def Size.ZERO : Size := ⟨0, 0⟩

def Displacement.ZERO : Displacement := ⟨0, 0⟩

def Rectangle.ZERO : Rectangle := ⟨Point.ZERO, Size.ZERO⟩

/-- Point::as_displacement from geometry.rs. -/
def Point.asDisplacement (p : Point) : Displacement := ⟨p.x, p.y⟩

/-- Size::as_displacement from geometry.rs. -/
def Size.asDisplacement (s : Size) : Displacement := ⟨s.width, s.height⟩

instance : HAdd Displacement Displacement Displacement :=
  ⟨fun a b => ⟨a.dx + b.dx, a.dy + b.dy⟩⟩

instance : HSub Displacement Displacement Displacement :=
  ⟨fun a b => ⟨a.dx - b.dx, a.dy - b.dy⟩⟩

instance : HAdd Point Displacement Point :=
  ⟨fun p d => ⟨p.x + d.dx, p.y + d.dy⟩⟩

instance : HSub Point Displacement Point :=
  ⟨fun p d => ⟨p.x - d.dx, p.y - d.dy⟩⟩

/-- Sub of two points yields a displacement, from geometry.rs. -/
def Point.subP (p q : Point) : Displacement := ⟨p.x - q.x, p.y - q.y⟩

instance : HAdd Rectangle Displacement Rectangle :=
  ⟨fun r d => ⟨r.topLeft + d, r.size⟩⟩

def Rectangle.left (r : Rectangle) : Int := r.topLeft.x

def Rectangle.top (r : Rectangle) : Int := r.topLeft.y

def Rectangle.width (r : Rectangle) : Int := r.size.width

def Rectangle.height (r : Rectangle) : Int := r.size.height

def Rectangle.right (r : Rectangle) : Int := r.left + r.width

def Rectangle.bottom (r : Rectangle) : Int := r.top + r.height

/-- Rectangle::contains from geometry.rs: half-open interval test. -/
def Rectangle.containsP (r : Rectangle) (p : Point) : Bool :=
  r.left ≤ p.x && r.right > p.x && r.top ≤ p.y && r.bottom > p.y

/-- Rectangle::overlaps from geometry.rs: the rectangles are disjoint when
they are separated on either axis or either has a zero dimension. -/
def Rectangle.overlaps (self rectangle : Rectangle) : Bool :=
  let disjoint :=
    rectangle.left ≥ self.right
    || rectangle.right ≤ self.left
    || rectangle.top ≥ self.bottom
    || rectangle.bottom ≤ self.top
    || self.width == 0
    || self.height == 0
    || rectangle.width == 0
    || rectangle.height == 0
  !disjoint

/-- A point with rational coordinates, modelling FPoint (f64) from geometry.rs. -/
structure FPoint where
  x : ℚ
  y : ℚ
  deriving DecidableEq, Repr

/-- A rational displacement, modelling FDisplacement (f64) from geometry.rs. -/
structure FDisplacement where
  dx : ℚ
  dy : ℚ
  deriving DecidableEq, Repr

def FPoint.asDisplacement (p : FPoint) : FDisplacement := ⟨p.x, p.y⟩

instance : HSub FPoint FDisplacement FPoint :=
  ⟨fun p d => ⟨p.x - d.dx, p.y - d.dy⟩⟩

instance : HSub FPoint FPoint FDisplacement :=
  ⟨fun p q => ⟨p.x - q.x, p.y - q.y⟩⟩

/-- Truncation toward zero, modelling the Rust `as i32` cast from f64. -/
def ratTrunc (q : ℚ) : Int := Int.tdiv q.num q.den

/-- From-FPoint-for-Point conversion in geometry.rs (`as i32` per coordinate). -/
def FPoint.toPoint (p : FPoint) : Point := ⟨ratTrunc p.x, ratTrunc p.y⟩

/-- From-FDisplacement-for-Displacement conversion in geometry.rs. -/
def FDisplacement.toDisplacement (d : FDisplacement) : Displacement :=
  ⟨ratTrunc d.dx, ratTrunc d.dy⟩

def Point.toFPoint (p : Point) : FPoint := ⟨(p.x : ℚ), (p.y : ℚ)⟩

/-- An external wlroots call issued by a surface capability method.  The
shallow embedding records these calls instead of performing them. -/
inductive SurfaceEffect where
  | xdgToplevelSetSize (width height : Int)
  | xwaylandConfigure (x y width height : Int)
  | layerConfigure (width height : Int)
  | xdgSetActivated (b : Bool)
  | xwaylandActivate (b : Bool)
  | xdgSetMaximized (b : Bool)
  | xwaylandSetMaximized (b : Bool)
  | xdgSetFullscreen (b : Bool)
  | xwaylandSetFullscreen (b : Bool)
  | xdgSetResizing (b : Bool)
  | xdgSendClose
  | xdgPopupDestroy
  | xwaylandClose
  | layerClose
  deriving DecidableEq, Repr

/-- The fields of wlr_surface.current read by the code: the buffer offset
(dx, dy) and the buffer size. -/
structure WlrSurfaceCurrent where
  dx : Int
  dy : Int
  width : Int
  height : Int
  deriving DecidableEq, Repr

/-- The toplevel.current flags of a wlr_xdg_toplevel read by shell/xdg.rs. -/
structure XdgToplevelState where
  activated : Bool
  maximized : Bool
  fullscreen : Bool
  resizing : Bool
  deriving DecidableEq, Repr

/-- The role of a wlr_xdg_surface, from shell/xdg.rs get_type.  A popup
carries its parent wlr_surface pointer, whether the parent is itself an
xdg surface, the parent geometry read by wlr_xdg_surface_get_geometry and
the popup geometry offset. -/
inductive XdgRole where
  | toplevel (tl : XdgToplevelState)
  | popup (parentPtr : Nat) (parentIsXdg : Bool) (parentGeometry : Rectangle)
      (popupGeometry : Point)
  | noRole
  deriving DecidableEq, Repr

/-- State behind a wlr_xdg_surface pointer, as read by shell/xdg.rs.
configureSerial models the serial returned by the native configure
senders (wlr_xdg_toplevel_set_size and friends). -/
structure XdgState where
  wlrSurfacePtr : Nat
  current : WlrSurfaceCurrent
  role : XdgRole
  geometry : Rectangle
  configureSerial : Nat
  deriving DecidableEq, Repr

/-- State behind a wlr_xwayland_surface pointer, as read by shell/xwayland.rs. -/
structure XwaylandState where
  wlrSurfacePtr : Nat
  current : WlrSurfaceCurrent
  x : Int
  y : Int
  width : Int
  height : Int
  maximizedVert : Bool
  maximizedHorz : Bool
  fullscreen : Bool
  deriving DecidableEq, Repr

/-- State behind a wlr_layer_surface_v1 pointer, as read by shell/layer.rs. -/
structure LayerState where
  wlrSurfacePtr : Nat
  current : WlrSurfaceCurrent
  desiredWidth : Int
  desiredHeight : Int
  keyboardInteractive : Bool
  deriving DecidableEq, Repr

/-- Modelled from the spec: the Surface tagged union over the three shell
adapters plus the Null test variant (spec section 4.2 and design note on
dynamic dispatch; the enum module itself is present in src only in an
older revision, while the three variant implementations are in
shell/xdg.rs, shell/layer.rs and shell/xwayland.rs).  Each capability
method dispatches exhaustively to the variant implementation below; the
Null variant gets the spec no-op defaults. -/
inductive Surface where
  | xdg (s : XdgState)
  | layer (s : LayerState)
  | xwayland (s : XwaylandState)
  | null
  deriving DecidableEq, Repr

/-- The wlr_surface pointer of the wrapped surface (0 models null). -/
def Surface.wlrSurfacePtr : Surface → Nat
  | .xdg s => s.wlrSurfacePtr
  | .layer s => s.wlrSurfacePtr
  | .xwayland s => s.wlrSurfacePtr
  | .null => 0

/-- The wlr_surface.current fields of the wrapped surface. -/
def Surface.current : Surface → WlrSurfaceCurrent
  | .xdg s => s.current
  | .layer s => s.current
  | .xwayland s => s.current
  | .null => ⟨0, 0, 0, 0⟩

/-- SurfaceExt::parent_wlr_surface: only an xdg popup reports a parent. -/
def Surface.parentWlrSurface : Surface → Option Nat
  | .xdg s =>
    match s.role with
    | .popup parentPtr _ _ _ => some parentPtr
    | _ => none
  | _ => none

/-- SurfaceExt::extents per variant: xdg uses the declared geometry,
layer-shell the desired size at the origin, xwayland the X11 rectangle. -/
def Surface.extents : Surface → Rectangle
  | .xdg s => s.geometry
  | .layer s => ⟨Point.ZERO, ⟨s.desiredWidth, s.desiredHeight⟩⟩
  | .xwayland s => ⟨⟨s.x, s.y⟩, ⟨s.width, s.height⟩⟩
  | .null => Rectangle.ZERO

/-- SurfaceExt::buffer_displacement: own extents top-left minus the
buffer position (current.dx, current.dy); zero for xwayland. -/
def Surface.bufferDisplacement : Surface → Displacement
  | .xdg s => s.geometry.topLeft.subP ⟨s.current.dx, s.current.dy⟩
  | .layer s => Point.ZERO.subP ⟨s.current.dx, s.current.dy⟩
  | .xwayland _ => Displacement.ZERO
  | .null => Displacement.ZERO

/-- SurfaceExt::parent_displacement: the popup geometry offset, shifted by
the parent geometry top-left when the parent is itself an xdg surface. -/
def Surface.parentDisplacement : Surface → Displacement
  | .xdg s =>
    match s.role with
    | .popup _ parentIsXdg parentGeometry popupGeometry =>
      if !parentIsXdg then ⟨popupGeometry.x, popupGeometry.y⟩
      else ⟨parentGeometry.topLeft.x + popupGeometry.x,
            parentGeometry.topLeft.y + popupGeometry.y⟩
    | _ => Displacement.ZERO
  | _ => Displacement.ZERO

/-- SurfaceExt::can_receive_focus: xdg toplevels yes, layer-shell per its
keyboard_interactive flag, xwayland yes. -/
def Surface.canReceiveFocus : Surface → Bool
  | .xdg s =>
    match s.role with
    | .toplevel _ => true
    | _ => false
  | .layer s => s.keyboardInteractive
  | .xwayland _ => true
  | .null => false

/-- SurfaceExt::move_to: a no-op for xdg and layer-shell; xwayland sends a
configure with the new position (the i16 casts of the source are not
modelled; no claim evaluates coordinates outside i16 range). -/
def Surface.moveTo : Surface → Point → List SurfaceEffect
  | .xdg _, _ => []
  | .layer _, _ => []
  | .xwayland s, p => [.xwaylandConfigure p.x p.y s.width s.height]
  | .null, _ => []

/-- SurfaceExt::resize, returning the configure serial and the native call
issued: xdg toplevels return the protocol serial, layer-shell the constant
0, xwayland the constant CONFIGURE_SERIAL = 1 (the u16 casts of the
source are not modelled; no claim evaluates sizes outside u16 range). -/
def Surface.resize : Surface → Size → Nat × List SurfaceEffect
  | .xdg s, size =>
    match s.role with
    | .toplevel _ => (s.configureSerial, [.xdgToplevelSetSize size.width size.height])
    | _ => (0, [])
  | .layer _, size => (0, [.layerConfigure size.width size.height])
  | .xwayland s, size => (1, [.xwaylandConfigure s.x s.y size.width size.height])
  | .null, _ => (0, [])

/-- SurfaceExt::activated getter per variant. -/
def Surface.activated : Surface → Bool
  | .xdg s =>
    match s.role with
    | .toplevel tl => tl.activated
    | _ => false
  | .layer _ => false
  | .xwayland _ => false
  | .null => false

def Surface.maximized : Surface → Bool
  | .xdg s =>
    match s.role with
    | .toplevel tl => tl.maximized
    | _ => false
  | .layer _ => false
  | .xwayland s => s.maximizedVert && s.maximizedHorz
  | .null => false

def Surface.fullscreen : Surface → Bool
  | .xdg s =>
    match s.role with
    | .toplevel tl => tl.fullscreen
    | _ => false
  | .layer _ => false
  | .xwayland s => s.fullscreen
  | .null => false

def Surface.resizing : Surface → Bool
  | .xdg s =>
    match s.role with
    | .toplevel tl => tl.resizing
    | _ => false
  | .layer _ => false
  | .xwayland _ => false
  | .null => false

/-- SurfaceExt::set_activated; the layer-shell body is literally the
constant 0 with no native call. -/
def Surface.setActivated : Surface → Bool → Nat × List SurfaceEffect
  | .xdg s, b =>
    match s.role with
    | .toplevel _ => (s.configureSerial, [.xdgSetActivated b])
    | _ => (0, [])
  | .layer _, _ => (0, [])
  | .xwayland _, b => (1, [.xwaylandActivate b])
  | .null, _ => (0, [])

def Surface.setMaximized : Surface → Bool → Nat × List SurfaceEffect
  | .xdg s, b =>
    match s.role with
    | .toplevel _ => (s.configureSerial, [.xdgSetMaximized b])
    | _ => (0, [])
  | .layer _, _ => (0, [])
  | .xwayland _, b => (1, [.xwaylandSetMaximized b])
  | .null, _ => (0, [])

def Surface.setFullscreen : Surface → Bool → Nat × List SurfaceEffect
  | .xdg s, b =>
    match s.role with
    | .toplevel _ => (s.configureSerial, [.xdgSetFullscreen b])
    | _ => (0, [])
  | .layer _, _ => (0, [])
  | .xwayland _, b => (1, [.xwaylandSetFullscreen b])
  | .null, _ => (0, [])

/-- SurfaceExt::set_resizing; xwayland returns the sentinel serial without
any native call, layer-shell returns 0 without any native call. -/
def Surface.setResizing : Surface → Bool → Nat × List SurfaceEffect
  | .xdg s, b =>
    match s.role with
    | .toplevel _ => (s.configureSerial, [.xdgSetResizing b])
    | _ => (0, [])
  | .layer _, _ => (0, [])
  | .xwayland _, _ => (1, [])
  | .null, _ => (0, [])

/-- SurfaceExt::ask_client_to_close per variant. -/
def Surface.askClientToClose : Surface → List SurfaceEffect
  | .xdg s =>
    match s.role with
    | .toplevel _ => [.xdgSendClose]
    | .popup _ _ _ _ => [.xdgPopupDestroy]
    | .noRole => []
  | .layer _ => [.layerClose]
  | .xwayland _ => [.xwaylandClose]
  | .null => []

/-- A sample layer-shell surface whose client requested keyboard
interactivity. -/
def interactiveLayerSurface : LayerState :=
  { wlrSurfacePtr := 7
    current := ⟨0, 0, 400, 30⟩
    desiredWidth := 400
    desiredHeight := 30
    keyboardInteractive := true }

/-- The five stacking layers, from window_manager.rs. -/
inductive WindowLayer where
  | background
  | bottom
  | normal
  | top
  | overlay
  deriving DecidableEq, Repr

/-- The window entity, from window.rs: owning layer, wrapped surface,
mapped flag, authoritative top-left, overlapped-output ids (push order)
and the pending-update map from configure serial to requested top-left.
The Rust BTreeMap is modelled as an association list with unique keys. -/
structure Window where
  layer : WindowLayer
  surface : Surface
  mapped : Bool
  topLeft : Point
  outputs : List Nat
  pendingUpdates : List (Nat × Point)
  deriving DecidableEq, Repr

/-- PartialEq for Window compares the wrapped surfaces (pointer identity
in the source, modelled by structural identity of the surface state). -/
def Window.sameWindow (a b : Window) : Bool := a.surface == b.surface

/-- BTreeMap::get on the pending-update map. -/
def pendingLookup (k : Nat) : List (Nat × Point) → Option Point
  | [] => none
  | (k1, v) :: rest => if k1 = k then some v else pendingLookup k rest

/-- BTreeMap::insert on the pending-update map: replaces the value of an
existing key, otherwise appends the entry. -/
def pendingInsert (k : Nat) (v : Point) : List (Nat × Point) → List (Nat × Point)
  | [] => [(k, v)]
  | (k1, v1) :: rest =>
    if k1 = k then (k, v) :: rest else (k1, v1) :: pendingInsert k v rest

/-- BTreeMap::remove on the pending-update map: the removed value, if any,
and the remaining map. -/
def pendingRemove (k : Nat) : List (Nat × Point) → Option Point × List (Nat × Point)
  | [] => (none, [])
  | (k1, v) :: rest =>
    if k1 = k then (some v, rest)
    else
      let r := pendingRemove k rest
      (r.1, (k1, v) :: r.2)

/-- How many entries of the pending-update map carry the given key. -/
def pendingCountKey (k : Nat) (l : List (Nat × Point)) : Nat :=
  (l.filter (fun e => e.1 == k)).length

/-- An output as seen by Window::update_outputs: its identity and the
extents the output reports from the native layout. -/
structure OutputModel where
  id : Nat
  extents : Rectangle
  deriving DecidableEq, Repr

/-- An observable step taken by the window entity or its event handler:
a native surface call, an output-membership recomputation and its
entered/left events, a focus blur, or a policy callback. -/
inductive Action where
  | surfaceEffect (e : SurfaceEffect)
  | updatedOutputs
  | enteredOutput (oid : Nat)
  | leftOutput (oid : Nat)
  | blurred
  | firedOnDestroy
  | adviseDeleteWindow
  | removedFromLayer
  | adviseConfiguredWindow
  deriving DecidableEq, Repr

/-- WindowManager::windows() find by wlr_surface pointer, used by
Window::position_displacement to resolve the parent window. -/
def findWindow (ws : List Window) (ptr : Nat) : Option Window :=
  ws.find? (fun w => w.surface.wlrSurfacePtr == ptr)

/-- The buffer rectangle read by Window::buffer_extents from the
wlr_surface current state: (dx, dy, width, height). -/
def bufferRect (w : Window) : Rectangle :=
  ⟨⟨w.surface.current.dx, w.surface.current.dy⟩,
   ⟨w.surface.current.width, w.surface.current.height⟩⟩

/-- Window::position_displacement from window.rs, with the implicit
recursion through the parent window's buffer_extents made explicit by a
fuel argument (parent chains in the source are finite; at exhausted fuel
the parent contribution is dropped). -/
def positionDisplacementF (ws : List Window) : Nat → Window → Displacement
  | 0, w =>
    w.topLeft.asDisplacement + Displacement.ZERO
      + w.surface.parentDisplacement - w.surface.bufferDisplacement
  | fuel + 1, w =>
    let parentTerm :=
      match w.surface.parentWlrSurface with
      | some ptr =>
        match findWindow ws ptr with
        | some pw => (bufferRect pw + positionDisplacementF ws fuel pw).topLeft.asDisplacement
        | none => Displacement.ZERO
      | none => Displacement.ZERO
    w.topLeft.asDisplacement + parentTerm
      + w.surface.parentDisplacement - w.surface.bufferDisplacement

/-- Window::extents: the surface extents shifted by the position
displacement. -/
def extentsW (ws : List Window) (fuel : Nat) (w : Window) : Rectangle :=
  w.surface.extents + positionDisplacementF ws fuel w

/-- Window::buffer_extents: the buffer rectangle shifted by the position
displacement. -/
def bufferExtentsW (ws : List Window) (fuel : Nat) (w : Window) : Rectangle :=
  bufferRect w + positionDisplacementF ws fuel w

/-- The position displacement exactly as the spec words it (section 4.4):
the stored top-left, plus the parent window's buffer-extents top-left when
the surface has a parent window, plus the surface's own parent
displacement (popup geometry offset), minus the surface's buffer
displacement (client-side shadow correction). -/
def specPositionDisplacement (ws : List Window) (fuel : Nat) (w : Window) : Displacement :=
  let storedTopLeft := w.topLeft.asDisplacement
  let parentBufferTopLeft :=
    match w.surface.parentWlrSurface with
    | some ptr =>
      match findWindow ws ptr with
      | some pw => (bufferExtentsW ws fuel pw).topLeft.asDisplacement
      | none => Displacement.ZERO
    | none => Displacement.ZERO
  storedTopLeft + parentBufferTopLeft
    + w.surface.parentDisplacement - w.surface.bufferDisplacement

/-- The part of a window's extents top-left that does not come from the
stored top-left: what remains of the displacement composition once the
move_to target is factored out. -/
def residualDisplacement (ws : List Window) (fuel : Nat) (w : Window) : Displacement :=
  w.surface.extents.topLeft.asDisplacement
    + (specPositionDisplacement ws fuel w - w.topLeft.asDisplacement)

/-- One iteration of the Window::update_outputs loop over a live output:
a newly overlapping output is appended to the membership list and fires
entered, an output no longer overlapping is removed and fires left. -/
def updateOutputsStep (ws : List Window) (fuel : Nat)
    (acc : Window × List Action) (o : OutputModel) : Window × List Action :=
  let wAcc := acc.1
  let evs := acc.2
  let previouslyOnOutput := wAcc.outputs.contains o.id
  let currentlyOnOutput := o.extents.overlaps (extentsW ws fuel wAcc)
  if currentlyOnOutput && !previouslyOnOutput then
    ({ wAcc with outputs := wAcc.outputs ++ [o.id] }, evs ++ [Action.enteredOutput o.id])
  else if !currentlyOnOutput && previouslyOnOutput then
    ({ wAcc with outputs := wAcc.outputs.filter (fun i => i != o.id) },
     evs ++ [Action.leftOutput o.id])
  else (wAcc, evs)

/-- Window::update_outputs from window.rs: walk the live outputs in
registry order applying updateOutputsStep.  The updatedOutputs marker
records the invocation itself. -/
def updateOutputs (ws : List Window) (fuel : Nat) (outs : List OutputModel)
    (w : Window) : Window × List Action :=
  let res := outs.foldl (updateOutputsStep ws fuel) (w, [])
  (res.1, Action.updatedOutputs :: res.2)

/-- Window::move_to: store the new top-left, forward to the surface, then
recompute output membership. -/
def moveToW (ws : List Window) (fuel : Nat) (outs : List OutputModel)
    (w : Window) (p : Point) : Window × List Action :=
  let w1 := { w with topLeft := p }
  let effs := (w.surface.moveTo p).map Action.surfaceEffect
  let r := updateOutputs ws fuel outs w1
  (r.1, effs ++ r.2)

/-- Window::set_extents: ask the surface to resize and record the desired
top-left in the pending-update map under the returned configure serial. -/
def setExtentsW (w : Window) (extents : Rectangle) : Window × List Action :=
  let r := w.surface.resize extents.size
  ({ w with pendingUpdates := pendingInsert r.1 extents.topLeft w.pendingUpdates },
   r.2.map Action.surfaceEffect)

/-- WindowEventHandler::commit from window.rs: blur when a focused window
lost focusability, then apply and drop the pending update for the
committed serial via move_to when present, otherwise just recompute
output membership; finally advise the policy of the configured window. -/
def commitW (ws : List Window) (fuel : Nat) (outs : List OutputModel)
    (w : Window) (windowHasFocus : Bool) (serial : Nat) : Window × List Action :=
  let blurTrace := if !w.surface.canReceiveFocus && windowHasFocus then [Action.blurred] else []
  let rem := pendingRemove serial w.pendingUpdates
  match rem.1 with
  | some updateTopLeft =>
    let w1 := { w with pendingUpdates := rem.2 }
    let r := moveToW ws fuel outs w1 updateTopLeft
    (r.1, blurTrace ++ r.2 ++ [Action.adviseConfiguredWindow])
  | none =>
    let r := updateOutputs ws fuel outs w
    (r.1, blurTrace ++ r.2 ++ [Action.adviseConfiguredWindow])

/-- The five back-to-front layer sequences of the window manager. -/
structure WindowLayers where
  background : List Window
  bottom : List Window
  normal : List Window
  top : List Window
  overlay : List Window
  deriving DecidableEq, Repr

/-- WindowLayers::update from window_manager.rs: apply a mutation to the
sequence of one layer. -/
def WindowLayers.update (ls : WindowLayers) (layer : WindowLayer)
    (f : List Window → List Window) : WindowLayers :=
  match layer with
  | .background => { ls with background := f ls.background }
  | .bottom => { ls with bottom := f ls.bottom }
  | .normal => { ls with normal := f ls.normal }
  | .top => { ls with top := f ls.top }
  | .overlay => { ls with overlay := f ls.overlay }

/-- WindowLayers::all_windows: the layers chained back to front. -/
def WindowLayers.allWindows (ls : WindowLayers) : List Window :=
  ls.background ++ ls.bottom ++ ls.normal ++ ls.top ++ ls.overlay

/-- The sequence held by one layer. -/
def WindowLayers.seq (ls : WindowLayers) : WindowLayer → List Window
  | .background => ls.background
  | .bottom => ls.bottom
  | .normal => ls.normal
  | .top => ls.top
  | .overlay => ls.overlay

/-- WindowManager::destroy_window: retain every window of the destroyed
window's layer that is not equal to it. -/
def destroyWindow (ls : WindowLayers) (destroyedWindow : Window) : WindowLayers :=
  ls.update destroyedWindow.layer
    (fun windows => windows.filter (fun w => !(Window.sameWindow w destroyedWindow)))

/-- WindowEventHandler::destroy from window.rs: fire the window's
on_destroy event, advise the policy of the deletion, then remove the
window from its layer via WindowManager::destroy_window. -/
def windowDestroyHandler (ls : WindowLayers) (w : Window) : WindowLayers × List Action :=
  (destroyWindow ls w,
   [Action.firedOnDestroy, Action.adviseDeleteWindow, Action.removedFromLayer])

/-- WindowManagerExt::new_window from window_manager.rs: build the window
with defaults, then insert it at index 0 of its layer when it can receive
focus, otherwise push it at the end. -/
def newWindow (ls : WindowLayers) (layer : WindowLayer) (surface : Surface) :
    Window × WindowLayers :=
  let window : Window :=
    { layer := layer
      surface := surface
      mapped := false
      topLeft := Point.ZERO
      outputs := []
      pendingUpdates := [] }
  if window.surface.canReceiveFocus then
    (window, ls.update layer (fun windows => window :: windows))
  else
    (window, ls.update layer (fun windows => windows ++ [window]))

/-- Whether some occurrence of the first action is followed, later in the
trace, by an occurrence of the second. -/
def occursBefore (a b : Action) : List Action → Bool
  | [] => false
  | x :: xs => if x = a then xs.contains b else occursBefore a b xs

/-- WindowEdge, from the bitflags in window.rs, as four booleans. -/
structure WindowEdge where
  top : Bool
  bottom : Bool
  left : Bool
  right : Bool
  deriving DecidableEq, Repr

/-- A move request as delivered to the policy: the drag point is the
cursor position minus the window top-left at request time. -/
structure MoveRequest where
  windowId : Nat
  dragPoint : FPoint
  deriving DecidableEq, Repr

/-- A resize request as delivered to the policy. -/
structure ResizeRequest where
  windowId : Nat
  cursorPosition : FPoint
  edges : WindowEdge
  deriving DecidableEq, Repr

/-- A call the example policy makes back into the window API. -/
inductive PolicyCall where
  | moveTo (p : Point)
  | setExtents (r : Rectangle)
  | setMaximized (b : Bool)
  | setFullscreen (b : Bool)
  | setResizing (b : Bool)
  deriving DecidableEq, Repr

/-- The gesture slot of the example floating window manager. -/
inductive Gesture where
  | move (r : MoveRequest)
  | resize (r : ResizeRequest) (originalExtents : Rectangle)
  deriving DecidableEq, Repr

/-- The gesture-relevant state of the example floating window manager. -/
structure FloatingWindowManager where
  gesture : Option Gesture
  deriving DecidableEq, Repr

/-- FloatingWindowManager::handle_request_move from example/src/main.rs:
deny the request when the window does not hold keyboard focus; otherwise
clear maximize and fullscreen if set and store the move gesture. -/
def handleRequestMove (st : FloatingWindowManager)
    (windowHasFocus maximized fullscreen : Bool) (request : MoveRequest) :
    FloatingWindowManager × List PolicyCall :=
  if !windowHasFocus then (st, [])
  else
    let calls :=
      (if maximized then [PolicyCall.setMaximized false] else [])
        ++ (if fullscreen then [PolicyCall.setFullscreen false] else [])
    ({ st with gesture := some (Gesture.move request) }, calls)

/-- FloatingWindowManager::handle_request_resize from example/src/main.rs:
deny when unfocused; otherwise set the client resizing flag if not yet
set and store the resize gesture with a snapshot of the extents. -/
def handleRequestResize (st : FloatingWindowManager)
    (windowHasFocus resizing : Bool) (windowExtents : Rectangle)
    (request : ResizeRequest) : FloatingWindowManager × List PolicyCall :=
  if !windowHasFocus then (st, [])
  else
    let calls := if !resizing then [PolicyCall.setResizing true] else []
    ({ st with gesture := some (Gesture.resize request windowExtents) }, calls)

/-- The Resize arm of handle_pointer_motion_event: apply the displacement
to the snapshotted extents on the axes selected by the edge mask, the top
edge taking the if branch over the bottom edge and the left edge over the
right edge. -/
def resizeExtents (edges : WindowEdge) (originalExtents : Rectangle)
    (displacement : Displacement) : Rectangle :=
  let e := originalExtents
  let e :=
    if edges.top then
      { e with topLeft := ⟨e.topLeft.x, e.topLeft.y + displacement.dy⟩
               size := ⟨e.size.width, e.size.height - displacement.dy⟩ }
    else if edges.bottom then
      { e with size := ⟨e.size.width, e.size.height + displacement.dy⟩ }
    else e
  if edges.left then
    { e with topLeft := ⟨e.topLeft.x + displacement.dx, e.topLeft.y⟩
             size := ⟨e.size.width - displacement.dx, e.size.height⟩ }
  else if edges.right then
    { e with size := ⟨e.size.width + displacement.dx, e.size.height⟩ }
  else e

/-- FloatingWindowManager::handle_pointer_motion_event from
example/src/main.rs: during a move gesture call move_to at the cursor
position minus the drag point; during a resize gesture apply the edge-mask
adjustment via set_extents; both consume the event, otherwise fall
through. -/
def handlePointerMotionEvent (st : FloatingWindowManager) (position : FPoint) :
    FloatingWindowManager × List PolicyCall × Bool :=
  match st.gesture with
  | some (Gesture.move g) =>
    (st, [PolicyCall.moveTo ((position - g.dragPoint.asDisplacement).toPoint)], true)
  | some (Gesture.resize g originalExtents) =>
    let displacement := (position - g.cursorPosition).toDisplacement
    (st, [PolicyCall.setExtents (resizeExtents g.edges originalExtents displacement)], true)
  | none => (st, [], false)

/-- A plain xdg toplevel window used by concrete counterexamples, with a
non-zero buffer-attach offset (current.dx = 3) and one pending update
mapping serial 7 to the top-left (100, 50). -/
def commitSampleWindow : Window :=
  { layer := WindowLayer.normal
    surface := Surface.xdg
      { wlrSurfacePtr := 3
        current := ⟨3, 0, 100, 100⟩
        role := XdgRole.toplevel ⟨false, false, false, false⟩
        geometry := ⟨⟨0, 0⟩, ⟨100, 100⟩⟩
        configureSerial := 9 }
    mapped := true
    topLeft := ⟨0, 0⟩
    outputs := []
    pendingUpdates := [(7, ⟨100, 50⟩)] }

/-- A destroyable sample window and the layer state holding it. -/
def destroySampleWindow : Window :=
  { layer := WindowLayer.normal
    surface := Surface.xdg
      { wlrSurfacePtr := 4
        current := ⟨0, 0, 50, 50⟩
        role := XdgRole.toplevel ⟨false, false, false, false⟩
        geometry := ⟨⟨0, 0⟩, ⟨50, 50⟩⟩
        configureSerial := 1 }
    mapped := true
    topLeft := ⟨0, 0⟩
    outputs := []
    pendingUpdates := [] }

def destroySampleLayers : WindowLayers :=
  { background := []
    bottom := []
    normal := [destroySampleWindow]
    top := []
    overlay := [] }

/-- A sample xwayland window with an empty pending-update map. -/
def xwSampleState : XwaylandState :=
  { wlrSurfacePtr := 11
    current := ⟨0, 0, 300, 200⟩
    x := 20
    y := 10
    width := 300
    height := 200
    maximizedVert := false
    maximizedHorz := false
    fullscreen := false }

def xwSampleWindow : Window :=
  { layer := WindowLayer.normal
    surface := Surface.xwayland xwSampleState
    mapped := true
    topLeft := ⟨0, 0⟩
    outputs := []
    pendingUpdates := [] }

def xwRect1 : Rectangle := ⟨⟨40, 40⟩, ⟨310, 210⟩⟩

def xwRect2 : Rectangle := ⟨⟨60, 80⟩, ⟨320, 220⟩⟩

/-- A sample layer-shell window with an empty pending-update map. -/
def layerSampleWindow : Window :=
  { layer := WindowLayer.top
    surface := Surface.layer interactiveLayerSurface
    mapped := true
    topLeft := ⟨0, 0⟩
    outputs := []
    pendingUpdates := [] }

/-- Claim C9 counterexample: the claimed equivalence, that a rectangle
self-overlaps exactly when both its dimensions are non-zero, fails at the
rectangle with top-left (0,0), width -1 and height 1: both dimensions are
non-zero, yet overlaps returns false. -/
theorem overlaps_self_iff_counterexample :
    ¬ (let r : Rectangle := ⟨⟨0, 0⟩, ⟨-1, 1⟩⟩
       (r.overlaps r = true ↔ (r.width ≠ 0 ∧ r.height ≠ 0))) := by
  decide

/-- Claim C9 (amended): overlaps is false whenever either rectangle has a
zero width or height, and a rectangle overlaps itself exactly when both of
its dimensions are positive. -/
theorem overlaps_true_iff (a b : Rectangle) :
    a.overlaps b = true ↔
      (b.left < a.right ∧ a.left < b.right ∧ b.top < a.bottom ∧ a.top < b.bottom
        ∧ a.width ≠ 0 ∧ a.height ≠ 0 ∧ b.width ≠ 0 ∧ b.height ≠ 0) := by
  simp only [Rectangle.overlaps, Rectangle.width, Rectangle.height,
    Rectangle.left, Rectangle.right, Rectangle.top, Rectangle.bottom,
    Bool.not_eq_true', Bool.or_eq_false_iff, decide_eq_false_iff_not,
    beq_eq_false_iff_ne, ne_eq, not_le]
  tauto

theorem overlaps_degenerate_and_self (a b r : Rectangle)
    (h : a.width = 0 ∨ a.height = 0 ∨ b.width = 0 ∨ b.height = 0) :
    a.overlaps b = false ∧ (r.overlaps r = true ↔ 0 < r.width ∧ 0 < r.height) := by
  constructor
  · rw [Bool.eq_false_iff, ne_eq, overlaps_true_iff]
    intro hc
    rcases hc with ⟨_, _, _, _, h5, h6, h7, h8⟩
    rcases h with h | h | h | h <;> simp_all
  · rw [overlaps_true_iff]
    simp only [Rectangle.right, Rectangle.bottom, Rectangle.left, Rectangle.top,
      Rectangle.width, Rectangle.height]
    omega

/-- Witness for overlaps_degenerate_and_self at concrete rectangles: a
degenerate rectangle never overlaps, and a unit square self-overlaps. -/
theorem overlaps_degenerate_and_self_witness :
    (Rectangle.overlaps ⟨⟨0, 0⟩, ⟨0, 5⟩⟩ ⟨⟨0, 0⟩, ⟨3, 3⟩⟩ = false)
    ∧ (Rectangle.overlaps ⟨⟨2, 2⟩, ⟨1, 1⟩⟩ ⟨⟨2, 2⟩, ⟨1, 1⟩⟩ = true
       ↔ 0 < Rectangle.width ⟨⟨2, 2⟩, ⟨1, 1⟩⟩ ∧ 0 < Rectangle.height ⟨⟨2, 2⟩, ⟨1, 1⟩⟩) :=
  overlaps_degenerate_and_self ⟨⟨0, 0⟩, ⟨0, 5⟩⟩ ⟨⟨0, 0⟩, ⟨3, 3⟩⟩ ⟨⟨2, 2⟩, ⟨1, 1⟩⟩
    (Or.inl (by decide))

/-- Claim C5 counterexample: can_receive_focus of a layer-shell surface is
not always false; for a surface whose current state has
keyboard_interactive set, it returns true. -/
theorem layer_can_receive_focus_counterexample :
    (Surface.layer interactiveLayerSurface).canReceiveFocus = true := by
  decide

/-- Claim C5 (amended): for every layer-shell surface, can_receive_focus
returns the surface's keyboard_interactive flag (so it is not fixed
false), while activated, maximized, fullscreen and resizing are always
false and the four corresponding setters issue no native call (they
return the constant 0). -/
theorem layer_surface_flags (s : LayerState) (b : Bool) :
    (Surface.layer s).canReceiveFocus = s.keyboardInteractive
    ∧ (Surface.layer s).activated = false
    ∧ (Surface.layer s).maximized = false
    ∧ (Surface.layer s).fullscreen = false
    ∧ (Surface.layer s).resizing = false
    ∧ (Surface.layer s).setActivated b = (0, [])
    ∧ (Surface.layer s).setMaximized b = (0, [])
    ∧ (Surface.layer s).setFullscreen b = (0, [])
    ∧ (Surface.layer s).setResizing b = (0, []) := by
  refine ⟨rfl, rfl, rfl, rfl, rfl, rfl, rfl, rfl, rfl⟩

/-- Claim C1: for every window, extents equals the surface extents plus a
position displacement recomputed on every call as the spec composition
(stored top-left, plus the parent window's buffer-extents top-left when a
parent window exists, plus the surface parent displacement, minus the
surface buffer displacement), and buffer_extents is the surface's buffer
rectangle shifted by that same displacement. -/
theorem extents_compose_position_displacement (ws : List Window) (fuel : Nat) (w : Window) :
    extentsW ws (fuel + 1) w = w.surface.extents + specPositionDisplacement ws fuel w
    ∧ bufferExtentsW ws (fuel + 1) w = bufferRect w + specPositionDisplacement ws fuel w
    ∧ positionDisplacementF ws (fuel + 1) w = specPositionDisplacement ws fuel w :=
  ⟨rfl, rfl, rfl⟩

/-- Claim C6: a newly created window is inserted at index 0 of its layer's
back-to-front sequence when it can receive focus, appended at the end
otherwise, and every other layer is left unchanged. -/
theorem new_window_insertion (ls : WindowLayers) (layer : WindowLayer)
    (surface : Surface) (l : WindowLayer) :
    ((newWindow ls layer surface).2).seq l =
      (if l = layer then
        (if surface.canReceiveFocus then
          (newWindow ls layer surface).1 :: ls.seq layer
         else ls.seq layer ++ [(newWindow ls layer surface).1])
       else ls.seq l) := by
  cases hf : surface.canReceiveFocus <;> cases layer <;> cases l <;>
    simp [newWindow, hf, WindowLayers.update, WindowLayers.seq]

/-- Claim C4 counterexample: at a concrete window and layer state, the
destroy handler does not remove the window from its layer before advising
the policy; no removal step precedes the advise_delete_window callback in
its trace. -/
theorem destroy_removal_order_counterexample :
    occursBefore Action.removedFromLayer Action.adviseDeleteWindow
      (windowDestroyHandler destroySampleLayers destroySampleWindow).2 = false := by
  decide

/-- Claim C4 (amended): when a window is destroyed, the policy's
advise_delete_window callback is invoked first, while the window is still
enumerable, and only afterwards is the window removed from its stacking
layer's sequence; the handler does remove it from exactly its own layer
and leaves the other layers unchanged. -/
theorem destroy_advises_then_removes (ls : WindowLayers) (w : Window) (l : WindowLayer) :
    occursBefore Action.adviseDeleteWindow Action.removedFromLayer
      (windowDestroyHandler ls w).2 = true
    ∧ ((windowDestroyHandler ls w).1).seq l =
        (if l = w.layer then
          (ls.seq l).filter (fun x => !(Window.sameWindow x w))
         else ls.seq l) := by
  constructor
  · rfl
  · cases hw : w.layer <;> cases l <;>
      simp [windowDestroyHandler, destroyWindow, WindowLayers.update, WindowLayers.seq, hw]

theorem int_tdiv_one (n : Int) : Int.tdiv n 1 = n := by
  cases n with
  | ofNat m =>
    show Int.ofNat (m / 1) = Int.ofNat m
    rw [Nat.div_one]
  | negSucc m =>
    show -Int.ofNat (m.succ / 1) = Int.negSucc m
    rw [Nat.div_one]
    rfl

theorem ratTrunc_intCast (n : Int) : ratTrunc (n : ℚ) = n := by
  unfold ratTrunc
  rw [Rat.num_intCast, Rat.den_intCast]
  exact int_tdiv_one n

theorem toPoint_eval (a b : ℚ) (x y : Int) (hx : a = (x : ℚ)) (hy : b = (y : ℚ)) :
    FPoint.toPoint ⟨a, b⟩ = ⟨x, y⟩ := by
  subst hx
  subst hy
  simp [FPoint.toPoint, ratTrunc_intCast]

theorem toDisplacement_eval (a b : ℚ) (x y : Int) (hx : a = (x : ℚ)) (hy : b = (y : ℚ)) :
    FDisplacement.toDisplacement ⟨a, b⟩ = ⟨x, y⟩ := by
  subst hx
  subst hy
  simp [FDisplacement.toDisplacement, ratTrunc_intCast]

/-- Claim C7: a move request from an unfocused window starts no gesture
and issues no call; a move request from the focused window stores a move
gesture recording the drag point, and every pointer motion at position p
during that gesture invokes move_to at p minus the drag point — in
particular drag point (10,10) and motion (110,60) yield move_to (100,50). -/
theorem move_gesture_behavior (st : FloatingWindowManager) (req : MoveRequest)
    (m f : Bool) (p : FPoint) :
    handleRequestMove st false m f req = (st, [])
    ∧ (handleRequestMove st true m f req).1.gesture = some (Gesture.move req)
    ∧ handlePointerMotionEvent ⟨some (Gesture.move req)⟩ p
        = (⟨some (Gesture.move req)⟩,
           [PolicyCall.moveTo ((p - req.dragPoint.asDisplacement).toPoint)], true)
    ∧ handlePointerMotionEvent ⟨some (Gesture.move ⟨5, ⟨10, 10⟩⟩)⟩ ⟨110, 60⟩
        = (⟨some (Gesture.move ⟨5, ⟨10, 10⟩⟩)⟩, [PolicyCall.moveTo ⟨100, 50⟩], true) := by
  refine ⟨rfl, rfl, rfl, ?_⟩
  have h : FPoint.toPoint ⟨(110 : ℚ) - 10, (60 : ℚ) - 10⟩ = (⟨100, 50⟩ : Point) :=
    toPoint_eval ((110 : ℚ) - 10) ((60 : ℚ) - 10) 100 50 (by norm_num) (by norm_num)
  exact congrArg
    (fun q => ((⟨some (Gesture.move ⟨5, ⟨10, 10⟩⟩)⟩ : FloatingWindowManager),
      [PolicyCall.moveTo q], true)) h

/-- Claim C8: during a resize gesture, pointer motion applies the
displacement from the originating cursor position to the snapshotted
extents via set_extents, affecting only the axes in the edge mask, with
the top edge taking precedence over the bottom edge and the left edge
over the right edge; in particular edges (right, bottom), original
extents ((0,0),(200,150)), start cursor (200,150) and motion (250,180)
request extents ((0,0),(250,180)). -/
theorem resize_gesture_behavior (req : ResizeRequest) (orig : Rectangle)
    (d : Displacement) (p : FPoint) (edges : WindowEdge) :
    handlePointerMotionEvent ⟨some (Gesture.resize req orig)⟩ p
      = (⟨some (Gesture.resize req orig)⟩,
         [PolicyCall.setExtents
           (resizeExtents req.edges orig ((p - req.cursorPosition).toDisplacement))], true)
    ∧ (edges.top = true →
        (resizeExtents edges orig d).topLeft.y = orig.topLeft.y + d.dy
        ∧ (resizeExtents edges orig d).size.height = orig.size.height - d.dy)
    ∧ (edges.top = false → edges.bottom = true →
        (resizeExtents edges orig d).topLeft.y = orig.topLeft.y
        ∧ (resizeExtents edges orig d).size.height = orig.size.height + d.dy)
    ∧ (edges.top = false → edges.bottom = false →
        (resizeExtents edges orig d).topLeft.y = orig.topLeft.y
        ∧ (resizeExtents edges orig d).size.height = orig.size.height)
    ∧ (edges.left = true →
        (resizeExtents edges orig d).topLeft.x = orig.topLeft.x + d.dx
        ∧ (resizeExtents edges orig d).size.width = orig.size.width - d.dx)
    ∧ (edges.left = false → edges.right = true →
        (resizeExtents edges orig d).topLeft.x = orig.topLeft.x
        ∧ (resizeExtents edges orig d).size.width = orig.size.width + d.dx)
    ∧ (edges.left = false → edges.right = false →
        (resizeExtents edges orig d).topLeft.x = orig.topLeft.x
        ∧ (resizeExtents edges orig d).size.width = orig.size.width)
    ∧ resizeExtents ⟨false, true, false, true⟩ ⟨⟨0, 0⟩, ⟨200, 150⟩⟩
        (((⟨250, 180⟩ : FPoint) - (⟨200, 150⟩ : FPoint)).toDisplacement)
        = ⟨⟨0, 0⟩, ⟨250, 180⟩⟩ := by
  obtain ⟨et, eb, el, er⟩ := edges
  have hd : (((⟨250, 180⟩ : FPoint) - (⟨200, 150⟩ : FPoint)).toDisplacement) = (⟨50, 30⟩ : Displacement) :=
    toDisplacement_eval ((250 : ℚ) - 200) ((180 : ℚ) - 150) 50 30 (by norm_num) (by norm_num)
  refine ⟨rfl, ?_, ?_, ?_, ?_, ?_, ?_, by rw [hd]; decide⟩
  all_goals cases et <;> cases eb <;> cases el <;> cases er <;> simp [resizeExtents]

/-- Witness for resize_gesture_behavior: at the concrete scenario inputs,
the edge-mask hypotheses are discharged with edges (right, bottom). -/
theorem resize_gesture_behavior_witness :
    ((⟨false, true, false, true⟩ : WindowEdge).top = false
      ∧ (⟨false, true, false, true⟩ : WindowEdge).bottom = true)
    ∧ (resizeExtents ⟨false, true, false, true⟩ ⟨⟨0, 0⟩, ⟨200, 150⟩⟩ ⟨50, 30⟩).topLeft.y
        = (⟨⟨0, 0⟩, ⟨200, 150⟩⟩ : Rectangle).topLeft.y
    ∧ (resizeExtents ⟨false, true, false, true⟩ ⟨⟨0, 0⟩, ⟨200, 150⟩⟩ ⟨50, 30⟩).size.height
        = (⟨⟨0, 0⟩, ⟨200, 150⟩⟩ : Rectangle).size.height + (⟨50, 30⟩ : Displacement).dy :=
  ⟨⟨by decide, by decide⟩,
    ((resize_gesture_behavior ⟨1, ⟨200, 150⟩, ⟨false, true, false, true⟩⟩
        ⟨⟨0, 0⟩, ⟨200, 150⟩⟩ ⟨50, 30⟩ ⟨250, 180⟩
        ⟨false, true, false, true⟩).2.2.1 (by decide) (by decide)).1,
    ((resize_gesture_behavior ⟨1, ⟨200, 150⟩, ⟨false, true, false, true⟩⟩
        ⟨⟨0, 0⟩, ⟨200, 150⟩⟩ ⟨50, 30⟩ ⟨250, 180⟩
        ⟨false, true, false, true⟩).2.2.1 (by decide) (by decide)).2⟩

theorem pendingLookup_insert (k : Nat) (v : Point) (l : List (Nat × Point)) :
    pendingLookup k (pendingInsert k v l) = some v := by
  induction l with
  | nil => simp [pendingInsert, pendingLookup]
  | cons e rest ih =>
    obtain ⟨k1, v1⟩ := e
    by_cases h : k1 = k <;> simp [pendingInsert, pendingLookup, h, ih]

theorem pendingCountKey_insert (k : Nat) (v : Point) (l : List (Nat × Point))
    (h : pendingCountKey k l ≤ 1) : pendingCountKey k (pendingInsert k v l) = 1 := by
  induction l with
  | nil => simp [pendingInsert, pendingCountKey, List.filter]
  | cons e rest ih =>
    obtain ⟨k1, v1⟩ := e
    by_cases hk : k1 = k
    · subst hk
      have hstep : ∀ x : Point, pendingCountKey k1 ((k1, x) :: rest) = 1 + pendingCountKey k1 rest := by
        intro x
        simp only [pendingCountKey, List.filter, beq_self_eq_true]
        simp [List.length_cons]
        omega
      rw [show pendingInsert k1 v ((k1, v1) :: rest) = (k1, v) :: rest from by
        simp [pendingInsert]]
      rw [hstep v]
      rw [hstep v1] at h
      omega
    · simp only [pendingInsert, if_neg hk]
      simp only [pendingCountKey, List.filter] at h ⊢
      have hne : (k1 == k) = false := by simp [hk]
      simp [hne] at h ⊢
      exact ih h

/-- Claim C10: every xwayland surface resize returns the constant serial 1
and every layer-shell resize the constant serial 0; consequently two
set_extents calls before any commit on an xwayland window leave exactly
one pending entry for serial 1, and on a layer-shell window exactly one
pending entry for serial 0, each holding only the later top-left. -/
theorem constant_serial_set_extents (xs : XwaylandState) (lst : LayerState) (sz : Size)
    (w v : Window) (r1 r2 r3 r4 : Rectangle)
    (hsurf : w.surface = Surface.xwayland xs)
    (hcnt : pendingCountKey 1 w.pendingUpdates ≤ 1)
    (hsurfL : v.surface = Surface.layer lst)
    (hcntL : pendingCountKey 0 v.pendingUpdates ≤ 1) :
    ((Surface.xwayland xs).resize sz).1 = 1
    ∧ ((Surface.layer lst).resize sz).1 = 0
    ∧ pendingLookup 1 ((setExtentsW (setExtentsW w r1).1 r2).1.pendingUpdates)
        = some r2.topLeft
    ∧ pendingCountKey 1 ((setExtentsW (setExtentsW w r1).1 r2).1.pendingUpdates) = 1
    ∧ pendingLookup 0 ((setExtentsW (setExtentsW v r3).1 r4).1.pendingUpdates)
        = some r4.topLeft
    ∧ pendingCountKey 0 ((setExtentsW (setExtentsW v r3).1 r4).1.pendingUpdates) = 1 := by
  refine ⟨rfl, rfl, ?_, ?_, ?_, ?_⟩
  · simp [setExtentsW, hsurf, Surface.resize, pendingLookup_insert]
  · simp only [setExtentsW, hsurf, Surface.resize]
    exact pendingCountKey_insert 1 r2.topLeft _
      (le_of_eq (pendingCountKey_insert 1 r1.topLeft _ hcnt))
  · simp [setExtentsW, hsurfL, Surface.resize, pendingLookup_insert]
  · simp only [setExtentsW, hsurfL, Surface.resize]
    exact pendingCountKey_insert 0 r4.topLeft _
      (le_of_eq (pendingCountKey_insert 0 r3.topLeft _ hcntL))

/-- Witness for constant_serial_set_extents at a concrete xwayland window
and a concrete layer-shell window, both with empty pending maps, each
receiving two concrete requested rectangles. -/
theorem constant_serial_set_extents_witness :
    ((Surface.xwayland xwSampleState).resize ⟨10, 10⟩).1 = 1
    ∧ ((Surface.layer interactiveLayerSurface).resize ⟨10, 10⟩).1 = 0
    ∧ pendingLookup 1
        ((setExtentsW (setExtentsW xwSampleWindow xwRect1).1 xwRect2).1.pendingUpdates)
        = some xwRect2.topLeft
    ∧ pendingCountKey 1
        ((setExtentsW (setExtentsW xwSampleWindow xwRect1).1 xwRect2).1.pendingUpdates) = 1
    ∧ pendingLookup 0
        ((setExtentsW (setExtentsW layerSampleWindow xwRect1).1 xwRect2).1.pendingUpdates)
        = some xwRect2.topLeft
    ∧ pendingCountKey 0
        ((setExtentsW (setExtentsW layerSampleWindow xwRect1).1 xwRect2).1.pendingUpdates) = 1 :=
  constant_serial_set_extents xwSampleState interactiveLayerSurface ⟨10, 10⟩
    xwSampleWindow layerSampleWindow xwRect1 xwRect2 xwRect1 xwRect2
    rfl (by decide) rfl (by decide)

theorem point_ext_xy (p q : Point) (hx : p.x = q.x) (hy : p.y = q.y) : p = q := by
  cases p
  cases q
  simp_all

theorem pendingRemove_fst (k : Nat) (l : List (Nat × Point)) :
    (pendingRemove k l).1 = pendingLookup k l := by
  induction l with
  | nil => rfl
  | cons e rest ih =>
    obtain ⟨k1, v⟩ := e
    by_cases h : k1 = k <;> simp [pendingRemove, pendingLookup, h, ih]

theorem pendingLookup_not_mem (k : Nat) (l : List (Nat × Point))
    (h : k ∉ l.map Prod.fst) : pendingLookup k l = none := by
  induction l with
  | nil => rfl
  | cons e rest ih =>
    obtain ⟨k1, v⟩ := e
    simp only [List.map_cons, List.mem_cons, not_or] at h
    have hk : k1 ≠ k := fun hc => h.1 hc.symm
    simp [pendingLookup, hk]
    exact ih h.2

theorem pendingRemove_lookup_none (k : Nat) (l : List (Nat × Point))
    (hnd : (l.map Prod.fst).Nodup) :
    pendingLookup k (pendingRemove k l).2 = none := by
  induction l with
  | nil => rfl
  | cons e rest ih =>
    obtain ⟨k1, v⟩ := e
    simp only [List.map_cons, List.nodup_cons] at hnd
    by_cases hk : k1 = k
    · subst hk
      simp only [pendingRemove, if_pos rfl]
      exact pendingLookup_not_mem k1 rest hnd.1
    · simp [pendingRemove, pendingLookup, hk]
      exact ih hnd.2

theorem list_contains_action (b : Action) (l : List Action) (h : b ∈ l) :
    l.contains b = true := by
  induction l with
  | nil => cases h
  | cons x xs ih =>
    rcases List.mem_cons.mp h with h1 | h2
    · subst h1
      simp [List.contains_cons]
    · simp only [List.contains_cons, Bool.or_eq_true]
      exact Or.inr (ih h2)

theorem occursBefore_append_cons (a b : Action) (l1 l2 : List Action) (hb : b ∈ l2) :
    occursBefore a b (l1 ++ a :: l2) = true := by
  induction l1 with
  | nil =>
    show occursBefore a b (a :: l2) = true
    simp only [occursBefore, if_pos rfl]
    exact list_contains_action b l2 hb
  | cons x xs ih =>
    show occursBefore a b (x :: (xs ++ a :: l2)) = true
    by_cases hx : x = a
    · simp only [occursBefore, if_pos hx]
      exact list_contains_action b _ (by simp [hb])
    · simp only [occursBefore, if_neg hx]
      exact ih

theorem getLast_concat_action (l : List Action) (a : Action) :
    (l ++ [a]).getLast? = some a := by
  rw [List.getLast?_concat]

theorem updateOutputsStep_preserves (ws : List Window) (fuel : Nat)
    (acc : Window × List Action) (o : OutputModel) :
    (updateOutputsStep ws fuel acc o).1.topLeft = acc.1.topLeft
    ∧ (updateOutputsStep ws fuel acc o).1.surface = acc.1.surface
    ∧ (updateOutputsStep ws fuel acc o).1.pendingUpdates = acc.1.pendingUpdates := by
  simp only [updateOutputsStep]
  split_ifs <;> exact ⟨rfl, rfl, rfl⟩

theorem updateOutputs_foldl_preserves (ws : List Window) (fuel : Nat)
    (outs : List OutputModel) :
    ∀ acc : Window × List Action,
      (outs.foldl (updateOutputsStep ws fuel) acc).1.topLeft = acc.1.topLeft
      ∧ (outs.foldl (updateOutputsStep ws fuel) acc).1.surface = acc.1.surface
      ∧ (outs.foldl (updateOutputsStep ws fuel) acc).1.pendingUpdates
          = acc.1.pendingUpdates := by
  induction outs with
  | nil => intro acc; exact ⟨rfl, rfl, rfl⟩
  | cons o rest ih =>
    intro acc
    have h := updateOutputsStep_preserves ws fuel acc o
    have h2 := ih (updateOutputsStep ws fuel acc o)
    exact ⟨h2.1.trans h.1, h2.2.1.trans h.2.1, h2.2.2.trans h.2.2⟩

theorem updateOutputs_preserves (ws : List Window) (fuel : Nat)
    (outs : List OutputModel) (w : Window) :
    (updateOutputs ws fuel outs w).1.topLeft = w.topLeft
    ∧ (updateOutputs ws fuel outs w).1.surface = w.surface
    ∧ (updateOutputs ws fuel outs w).1.pendingUpdates = w.pendingUpdates :=
  updateOutputs_foldl_preserves ws fuel outs (w, [])

theorem extentsW_topLeft_decomposition (ws : List Window) (fuel : Nat) (v : Window) :
    (extentsW ws (fuel + 1) v).topLeft = v.topLeft + residualDisplacement ws fuel v := by
  apply point_ext_xy
  · show v.surface.extents.topLeft.x + (specPositionDisplacement ws fuel v).dx
      = v.topLeft.x + (v.surface.extents.topLeft.x
          + ((specPositionDisplacement ws fuel v).dx - v.topLeft.x))
    ring
  · show v.surface.extents.topLeft.y + (specPositionDisplacement ws fuel v).dy
      = v.topLeft.y + (v.surface.extents.topLeft.y
          + ((specPositionDisplacement ws fuel v).dy - v.topLeft.y))
    ring

theorem commitW_some_shape (ws : List Window) (fuel : Nat) (outs : List OutputModel)
    (w : Window) (hf : Bool) (S : Nat) (P : Point)
    (hrem : (pendingRemove S w.pendingUpdates).1 = some P) :
    commitW ws fuel outs w hf S =
      ((updateOutputs ws fuel outs
          { w with pendingUpdates := (pendingRemove S w.pendingUpdates).2, topLeft := P }).1,
       (if !w.surface.canReceiveFocus && hf then [Action.blurred] else [])
         ++ ((w.surface.moveTo P).map Action.surfaceEffect
              ++ (updateOutputs ws fuel outs
                    { w with pendingUpdates := (pendingRemove S w.pendingUpdates).2,
                             topLeft := P }).2)
         ++ [Action.adviseConfiguredWindow]) := by
  simp only [commitW, hrem, moveToW]

theorem commitW_none_shape (ws : List Window) (fuel : Nat) (outs : List OutputModel)
    (w : Window) (hf : Bool) (S : Nat)
    (hrem : (pendingRemove S w.pendingUpdates).1 = none) :
    commitW ws fuel outs w hf S =
      ((updateOutputs ws fuel outs w).1,
       (if !w.surface.canReceiveFocus && hf then [Action.blurred] else [])
         ++ (updateOutputs ws fuel outs w).2
         ++ [Action.adviseConfiguredWindow]) := by
  simp only [commitW, hrem]

/-- Claim C2 counterexample: at a concrete xdg-toplevel window whose
buffer-attach offset is (3, 0) and whose pending map sends serial 7 to
the top-left (100, 50), the commit callback with serial 7 does not leave
the window with extents top-left (100, 50): the residual surface offset
shifts it to (103, 50). -/
theorem commit_extents_counterexample :
    pendingLookup 7 commitSampleWindow.pendingUpdates = some ⟨100, 50⟩
    ∧ (extentsW [] 1 (commitW [] 1 [] commitSampleWindow false 7).1).topLeft
        = (⟨103, 50⟩ : Point)
    ∧ (extentsW [] 1 (commitW [] 1 [] commitSampleWindow false 7).1).topLeft
        ≠ (⟨100, 50⟩ : Point) := by
  refine ⟨by decide, by decide, by decide⟩

/-- Claim C2 (amended): when the commit callback fires with serial S and
the pending-update map sends S to top-left P, the entry for S is removed,
move_to(P) is applied so the stored top-left equals P and the extents
top-left equals P plus the window's residual surface displacement (so it
equals P exactly when that residual is zero), output membership is
recomputed before the policy is advised, and advise_configured_window is
the final step; when the committed serial has no pending entry, output
membership is still recomputed and advise_configured_window still fires
last. -/
theorem commit_applies_pending_update (ws : List Window) (fuel : Nat)
    (outs : List OutputModel) (w : Window) (hf : Bool) (S : Nat) (P : Point)
    (hnd : (w.pendingUpdates.map Prod.fst).Nodup)
    (hP : pendingLookup S w.pendingUpdates = some P) :
    pendingLookup S (commitW ws fuel outs w hf S).1.pendingUpdates = none
    ∧ (commitW ws fuel outs w hf S).1.topLeft = P
    ∧ (extentsW ws (fuel + 1) (commitW ws fuel outs w hf S).1).topLeft
        = P + residualDisplacement ws fuel (commitW ws fuel outs w hf S).1
    ∧ occursBefore Action.updatedOutputs Action.adviseConfiguredWindow
        (commitW ws fuel outs w hf S).2 = true
    ∧ (commitW ws fuel outs w hf S).2.getLast? = some Action.adviseConfiguredWindow
    ∧ (∀ (w2 : Window) (hf2 : Bool) (S2 : Nat),
        pendingLookup S2 w2.pendingUpdates = none →
          occursBefore Action.updatedOutputs Action.adviseConfiguredWindow
            (commitW ws fuel outs w2 hf2 S2).2 = true
          ∧ (commitW ws fuel outs w2 hf2 S2).2.getLast?
              = some Action.adviseConfiguredWindow) := by
  have hrem : (pendingRemove S w.pendingUpdates).1 = some P := by
    rw [pendingRemove_fst]
    exact hP
  have hshape := commitW_some_shape ws fuel outs w hf S P hrem
  have hw1 := updateOutputs_preserves ws fuel outs
    { w with pendingUpdates := (pendingRemove S w.pendingUpdates).2, topLeft := P }
  refine ⟨?_, ?_, ?_, ?_, ?_, ?_⟩
  · rw [hshape]
    show pendingLookup S (updateOutputs ws fuel outs _).1.pendingUpdates = none
    rw [hw1.2.2]
    exact pendingRemove_lookup_none S w.pendingUpdates hnd
  · rw [hshape]
    exact hw1.1
  · rw [hshape]
    have := extentsW_topLeft_decomposition ws fuel
      (updateOutputs ws fuel outs
        { w with pendingUpdates := (pendingRemove S w.pendingUpdates).2, topLeft := P }).1
    rw [this, hw1.1]
  · rw [hshape]
    show occursBefore Action.updatedOutputs Action.adviseConfiguredWindow
      (_ ++ ((w.surface.moveTo P).map Action.surfaceEffect
        ++ (Action.updatedOutputs :: _)) ++ [Action.adviseConfiguredWindow]) = true
    have hre : ∀ (b : List Action) (e : List Action) (t : List Action),
        b ++ (e ++ (Action.updatedOutputs :: t)) ++ [Action.adviseConfiguredWindow]
          = (b ++ e) ++ Action.updatedOutputs :: (t ++ [Action.adviseConfiguredWindow]) := by
      intro b e t
      simp
    rw [hre]
    exact occursBefore_append_cons _ _ _ _ (by simp)
  · rw [hshape]
    rw [show ∀ (b : List Action) (m : List Action),
        b ++ m ++ [Action.adviseConfiguredWindow]
          = (b ++ m) ++ [Action.adviseConfiguredWindow] from fun b m => by simp]
    exact getLast_concat_action _ _
  · intro w2 hf2 S2 hnone
    have hrem2 : (pendingRemove S2 w2.pendingUpdates).1 = none := by
      rw [pendingRemove_fst]
      exact hnone
    have hshape2 := commitW_none_shape ws fuel outs w2 hf2 S2 hrem2
    constructor
    · rw [hshape2]
      show occursBefore Action.updatedOutputs Action.adviseConfiguredWindow
        (_ ++ (Action.updatedOutputs :: _) ++ [Action.adviseConfiguredWindow]) = true
      have hre : ∀ (b : List Action) (t : List Action),
          b ++ (Action.updatedOutputs :: t) ++ [Action.adviseConfiguredWindow]
            = b ++ Action.updatedOutputs :: (t ++ [Action.adviseConfiguredWindow]) := by
        intro b t
        simp
      rw [hre]
      exact occursBefore_append_cons _ _ _ _ (by simp)
    · rw [hshape2]
      rw [show ∀ (b : List Action) (m : List Action),
          b ++ m ++ [Action.adviseConfiguredWindow]
            = (b ++ m) ++ [Action.adviseConfiguredWindow] from fun b m => by simp]
      exact getLast_concat_action _ _

/-- Witness for commit_applies_pending_update at the concrete sample
window (pending serial 7 mapping to (100, 50)), with the no-pending-entry
part instantiated at a window with an empty pending map. -/
theorem commit_applies_pending_update_witness :
    pendingLookup 7 (commitW [] 0 [] commitSampleWindow false 7).1.pendingUpdates = none
    ∧ (commitW [] 0 [] commitSampleWindow false 7).1.topLeft = (⟨100, 50⟩ : Point)
    ∧ occursBefore Action.updatedOutputs Action.adviseConfiguredWindow
        (commitW [] 0 [] commitSampleWindow false 7).2 = true
    ∧ (commitW [] 0 [] commitSampleWindow false 7).2.getLast?
        = some Action.adviseConfiguredWindow
    ∧ occursBefore Action.updatedOutputs Action.adviseConfiguredWindow
        (commitW [] 0 [] xwSampleWindow false 3).2 = true := by
  have H := commit_applies_pending_update [] 0 [] commitSampleWindow false 7 ⟨100, 50⟩
    (by decide) (by decide)
  exact ⟨H.1, H.2.1, H.2.2.2.1, H.2.2.2.2.1,
    (H.2.2.2.2.2 xwSampleWindow false 3 (by decide)).1⟩

end Wlral
